import Mathlib

/-!
Shallow embedding of the lugx-gaming order service (`src/unnamed/part_002`,
an Express/PostgreSQL service) and analytics service
(`src/services/analytics-service/index.js`, Express over ClickHouse).

Conventions of the embedding:
* JavaScript numbers that hold money are modelled as exact rationals `Rat`
  (the store column is `DECIMAL(10,2)`, so values are exact decimals);
  `parseFloat(x) || 0` on a missing or non-numeric value is modelled by
  `Option Rat` with `none` for the missing/NaN case.
* JavaScript falsiness of an optional string field (`!x` is true for
  `undefined`, `null` and the empty string) is `jsFalsy`.
* The database state is explicit: `OrderStore` holds the `orders` and
  `order_items` tables; each request handler is a pure function from a
  store and a request to a response paired with the next store.  A
  transaction that rolls back returns the input store unchanged.
* Storage failures during item insertion (constraint violation, connection
  loss) are injected through an explicit `failAt` parameter; a `NOT NULL`
  violation on `product_price` is modelled directly.
-/

/-- JavaScript truthiness test for an optional string: `!x` is `true`
exactly when the field is absent (`undefined`/`null`) or empty. -/
def jsFalsy : Option String → Bool
  | none => true
  | some s => s.isEmpty

/-- Models `parseFloat(x) || 0`: a missing or non-numeric price counts as 0. -/
def parseFloatOr0 : Option Rat → Rat
  | none => 0
  | some q => q

/-- Models `item.quantity || 1`: a missing or zero quantity becomes 1. -/
def jsQty : Option Nat → Nat
  | none => 1
  | some 0 => 1
  | some n => n

/-- Row of the `orders` table (header): `id`, `order_number`, `user_id`,
`status` (default `pending`), `total_amount DECIMAL(10,2)`,
`customer_email` (nullable), `created_at`. -/
structure OrderRow where
  id : Nat
  order_number : String
  user_id : String
  status : String
  total_amount : Rat
  customer_email : Option String
  created_at : Nat
deriving DecidableEq, Repr

/-- Row of the `order_items` table: `id`, `order_id` (references orders,
`ON DELETE CASCADE`), `game_id` (nullable), snapshotted `product_title`,
`product_price`, `quantity`. -/
structure OrderItemRow where
  id : Nat
  order_id : Nat
  game_id : Option String
  product_title : String
  product_price : Rat
  quantity : Nat
deriving DecidableEq, Repr

/-- The order-service database: both tables plus a fresh-id source
(modelling `gen_random_uuid()`). -/
structure OrderStore where
  orders : List OrderRow
  order_items : List OrderItemRow
  nextId : Nat
deriving DecidableEq, Repr

/-- One line item of a `POST /orders` request body. -/
structure OrderItemReq where
  game_id : Option String
  product_title : String
  product_price : Option Rat
  quantity : Option Nat
deriving DecidableEq, Repr

/-- Body of a `POST /orders` request; `items = none` models a missing
`items` field or one that is not an array (`!items || !Array.isArray(items)`). -/
structure CreateOrderReq where
  user_id : Option String
  items : Option (List OrderItemReq)
  customer_email : Option String
deriving DecidableEq, Repr

/-- Responses of the order-service handlers, tagged with their payloads. -/
inductive OrderResp where
  | created (order : OrderRow)
  | fetched (order : OrderRow) (items : List OrderItemRow)
  | updated (order : OrderRow)
  | deleted (order : OrderRow)
  | validationError (msg : String)
  | invalidStatus (msg : String) (validStatuses : List String)
  | notFound (msg : String)
  | serverError
deriving DecidableEq, Repr

/-- HTTP status code of each order-service response. -/
def OrderResp.httpCode : OrderResp → Nat
  | .created _ => 201
  | .fetched _ _ => 200
  | .updated _ => 200
  | .deleted _ => 200
  | .validationError _ => 400
  | .invalidStatus _ _ => 400
  | .notFound _ => 404
  | .serverError => 500

/-- Models line 135: `items.reduce((sum, item) => sum + (parseFloat(item.product_price) || 0), 0)`.
The quantity field is not consulted. -/
def orderTotal (items : List OrderItemReq) : Rat :=
  (items.map (fun item => parseFloatOr0 item.product_price)).sum

/-- Rows inserted into `order_items` for one creation attempt, with fresh ids. -/
def itemRowsFrom (orderId : Nat) (baseId : Nat) : List OrderItemReq → List OrderItemRow
  | [] => []
  | item :: rest =>
      { id := baseId, order_id := orderId, game_id := item.game_id,
        product_title := item.product_title,
        product_price := parseFloatOr0 item.product_price,
        quantity := jsQty item.quantity } :: itemRowsFrom orderId (baseId + 1) rest

/-- Whether the item-insertion loop raises a storage error: either an injected
failure `failAt = some k` hits an actual item index, or some item has no
numeric `product_price` (the raw value is inserted into a `DECIMAL NOT NULL`
column, so a missing price violates the constraint). -/
def insertionFails (items : List OrderItemReq) (failAt : Option Nat) : Bool :=
  (match failAt with
   | none => false
   | some k => decide (k < items.length))
  || items.any (fun item => item.product_price.isNone)

/-- Models `POST /orders` (lines 125-165): `BEGIN`; validate
`user_id`/`items`; compute the total; insert the header (status defaults to
`pending`); insert one row per item; `COMMIT` — any storage error during the
loop triggers `ROLLBACK` and a 500, leaving the store as it was.  `now`
supplies `Date.now()` (order number suffix and `created_at`); `failAt`
injects a storage failure at the given item index. -/
def createOrder (st : OrderStore) (req : CreateOrderReq) (now : Nat)
    (failAt : Option Nat) : OrderResp × OrderStore :=
  if jsFalsy req.user_id then
    (.validationError "user_id and items required", st)
  else
    match req.items with
    | none => (.validationError "user_id and items required", st)
    | some items =>
      let header : OrderRow :=
        { id := st.nextId,
          order_number := "LUGX-" ++ toString now,
          user_id := req.user_id.getD "",
          status := "pending",
          total_amount := orderTotal items,
          customer_email := req.customer_email,
          created_at := now }
      if insertionFails items failAt then
        (.serverError, st)
      else
        (.created header,
         { orders := st.orders ++ [header],
           order_items := st.order_items ++ itemRowsFrom header.id (st.nextId + 1) items,
           nextId := st.nextId + 1 + items.length })

/-- Lookup in the `orders` table by primary key, as in
`SELECT * FROM orders WHERE id = $1`. -/
def findOrder (st : OrderStore) (id : Nat) : Option OrderRow :=
  st.orders.find? (fun o => o.id == id)

/-- Models `GET /orders/:id` (lines 102-123): 404 when the header is absent,
otherwise the header together with its items. -/
def getOrder (st : OrderStore) (id : Nat) : OrderResp :=
  match findOrder st id with
  | none => .notFound "Order not found"
  | some o => .fetched o (st.order_items.filter (fun r => r.order_id == id))

/-- The fixed status enumeration of line 185. -/
def validStatuses : List String :=
  ["pending", "confirmed", "processing", "shipped", "delivered", "cancelled"]

/-- Body of a `PUT /orders/:id` request; `none` models an absent
(`undefined`) field, i.e. a field not supplied for update. -/
structure UpdateOrderReq where
  status : Option String
  customer_email : Option String
deriving DecidableEq, Repr

/-- Whether a supplied status fails the membership check of lines 184-188. -/
def statusBad (req : UpdateOrderReq) : Bool :=
  match req.status with
  | none => false
  | some s => !(validStatuses.contains s)

/-- The dynamic `UPDATE ... SET` of lines 180-203 applied to one row: only
the supplied fields are overwritten. -/
def applyUpdate (req : UpdateOrderReq) (o : OrderRow) : OrderRow :=
  { o with
    status := req.status.getD o.status,
    customer_email :=
      match req.customer_email with
      | none => o.customer_email
      | some e => some e }

/-- Models `PUT /orders/:id` (lines 168-214): existence check (else 404),
status membership check if a status is supplied (else 400 carrying
`validStatuses`), zero-field check (else 400), then the dynamic partial
update, returning the updated row. -/
def updateOrder (st : OrderStore) (id : Nat) (req : UpdateOrderReq) :
    OrderResp × OrderStore :=
  match findOrder st id with
  | none => (.notFound "Order not found", st)
  | some old =>
    if statusBad req then
      (.invalidStatus "Invalid status" validStatuses, st)
    else if req.status.isNone && req.customer_email.isNone then
      (.validationError "No fields to update", st)
    else
      (.updated (applyUpdate req old),
       { st with
         orders := st.orders.map (fun o => if o.id == id then applyUpdate req o else o) })

/-- Models `DELETE /orders/:id` (lines 217-245): existence check (else 404),
then `DELETE FROM orders WHERE id = $1` inside a transaction; the rows of
`order_items` that reference the order disappear with it through the
schema's `ON DELETE CASCADE` (line 47).  The deleted header is returned as
confirmation. -/
def deleteOrder (st : OrderStore) (id : Nat) : OrderResp × OrderStore :=
  match findOrder st id with
  | none => (.notFound "Order not found", st)
  | some old =>
      (.deleted old,
       { st with
         orders := st.orders.filter (fun o => !(o.id == id)),
         order_items := st.order_items.filter (fun r => !(r.order_id == id)) })

/-! ### Analytics service -/

/-- The apostrophe character, written by code point to keep the escaping
functions readable. -/
def squote : Char := Char.ofNat 39

/-- Models `x.replace(/'/g, "''")` on the character list of a string:
every apostrophe is doubled for the ClickHouse string literal. -/
def escapeChars : List Char → List Char
  | [] => []
  | c :: cs =>
      if c == squote then squote :: squote :: escapeChars cs
      else c :: escapeChars cs

/-- ClickHouse string-literal semantics: parsing a literal turns each
doubled apostrophe back into a single one, so this is the value the store
actually holds for a given literal body. -/
def unescapeChars : List Char → List Char
  | [] => []
  | [c] => [c]
  | c :: c2 :: cs =>
      if c == squote && c2 == squote then squote :: unescapeChars cs
      else c :: unescapeChars (c2 :: cs)

/-- The literal body the service builds for one field:
`value.replace(/'/g, "''").substring(0, n)` — escape first, then truncate
to `n` characters of the escaped form. -/
def normField (n : Nat) (s : String) : String :=
  String.mk ((escapeChars s.data).take n)

/-- The value the event store ends up holding for one field: the built
literal body, read back under ClickHouse literal semantics. -/
def storedField (n : Nat) (s : String) : String :=
  String.mk (unescapeChars ((escapeChars s.data).take n))

/-- Models `page_url || page_path`: a missing or empty `page_url` falls
back to the supplied value. -/
def jsOrStr (o : Option String) (d : String) : String :=
  match o with
  | none => d
  | some s => if s.isEmpty then d else s

/-- Models `JSON.stringify(data || {})`: the payload is kept opaque as its
JSON text, with `\x7b\x7d` for the absent case. -/
def jsonOfData : Option String → String
  | none => "\x7b\x7d"
  | some s => s

/-- Body of a `POST /analytics` request.  The client beacon
(`lugx-analytics.js`, `send`) always supplies all seven fields, including a
`timestamp`; the service destructures only the first six and never reads
`timestamp`. -/
structure AnalyticsReq where
  session_id : Option String
  user_id : Option String
  event_type : Option String
  page_path : Option String
  page_url : Option String
  timestamp : Option String
  data : Option String
deriving DecidableEq, Repr

/-- Row of the append-only `lugx_analytics.events` table; `timestamp` is in
whole seconds (the `DateTime` column has second precision). -/
structure EventRow where
  session_id : String
  user_id : String
  event_type : String
  page_path : String
  page_url : String
  timestamp : Nat
  event_data : String
deriving DecidableEq, Repr

/-- Responses of the analytics handlers. -/
inductive AnalyticsResp where
  | ok
  | badRequest (msg : String)
  | deleteResult (msg : String) (deleted_count : Nat)
  | serverError
deriving DecidableEq, Repr

/-- HTTP status code of each analytics response. -/
def AnalyticsResp.httpCode : AnalyticsResp → Nat
  | .ok => 200
  | .badRequest _ => 400
  | .deleteResult _ _ => 200
  | .serverError => 500

/-- The row built by `POST /analytics` (lines 88-105): each field escaped
and truncated (100/100/100/200/500), `page_url` falling back to
`page_path`, the timestamp re-derived from the server clock with the
sub-second part discarded (`nowMs` is the server clock in milliseconds),
and the payload JSON-encoded and escaped.  The client-sent `timestamp`
field is not consulted. -/
def analyticsRow (req : AnalyticsReq) (nowMs : Nat) : EventRow :=
  { session_id := storedField 100 (req.session_id.getD ""),
    user_id := storedField 100 (req.user_id.getD ""),
    event_type := storedField 100 (req.event_type.getD ""),
    page_path := storedField 200 (req.page_path.getD ""),
    page_url := storedField 500 (jsOrStr req.page_url (req.page_path.getD "")),
    timestamp := nowMs / 1000,
    event_data := String.mk (unescapeChars (escapeChars (jsonOfData req.data).data)) }

/-- Models `POST /analytics` (lines 80-129): the four mandatory fields are
checked for JavaScript truthiness (else 400 and nothing stored), then one
row is appended to the event store. -/
def postAnalytics (st : List EventRow) (req : AnalyticsReq) (nowMs : Nat) :
    AnalyticsResp × List EventRow :=
  if jsFalsy req.session_id || jsFalsy req.user_id
      || jsFalsy req.event_type || jsFalsy req.page_path then
    (.badRequest "Missing required fields: session_id, user_id, event_type, page_path", st)
  else
    (.ok, st ++ [analyticsRow req nowMs])

/-- Body of a `DELETE /analytics` request; `before_date` is the age cutoff
(modelled as a second-precision timestamp, comparable to `EventRow.timestamp`). -/
structure DeleteAnalyticsReq where
  user_id : Option String
  session_id : Option String
  before_date : Option Nat
deriving DecidableEq, Repr

/-- The conjunctive `WHERE` clause of lines 201-211: each supplied
(truthy) filter must hold; `before_date` matches rows strictly older than
the cutoff (`timestamp < before_date`). -/
def matchesFilters (req : DeleteAnalyticsReq) (r : EventRow) : Bool :=
  (if jsFalsy req.user_id then true else r.user_id == req.user_id.getD "")
  && (if jsFalsy req.session_id then true else r.session_id == req.session_id.getD "")
  && (match req.before_date with
      | none => true
      | some d => decide (r.timestamp < d))

/-- A JavaScript value, as far as the delete handler's count plumbing
needs one: ClickHouse `FORMAT JSON` quotes 64-bit integers by default
(`output_format_json_quote_64bit_integers = 1`, which nothing in the
repository overrides), so the UInt64 `count()` arrives as a JSON string. -/
inductive JsValue where
  | str (s : String)
  | num (n : Nat)
deriving DecidableEq, Repr

/-- JavaScript strict equality `===`: operands of different types are
never equal; same-typed operands compare by value. -/
def jsStrictEq : JsValue → JsValue → Bool
  | .str a, .str b => a == b
  | .num a, .num b => a == b
  | _, _ => false

/-- Strict equality between a string and a number is always false. -/
theorem jsStrictEq_str_num (s : String) (n : Nat) :
    jsStrictEq (JsValue.str s) (JsValue.num n) = false := rfl

/-- Models `DELETE /analytics` (lines 191-254): reject when no filter is
supplied; run the count query first.  ClickHouse answers
`SELECT count() as total ... FORMAT JSON` with the count quoted as a JSON
string, so `recordsToDelete` is a string and the line-227 test
`recordsToDelete === 0` is always false: the zero-match short-circuit is
dead and `ALTER TABLE ... DELETE` is issued for the same clause even when
nothing matches, with the pre-computed count reported (its JSON value is
the quoted decimal string of the number carried here).  The third
component records whether a delete statement was issued against the
store. -/
def deleteAnalytics (st : List EventRow) (req : DeleteAnalyticsReq) :
    AnalyticsResp × List EventRow × Bool :=
  if jsFalsy req.user_id && jsFalsy req.session_id && req.before_date.isNone then
    (.badRequest "At least one filter required: user_id, session_id, or before_date", st, false)
  else
    let cnt := (st.filter (matchesFilters req)).length
    let recordsToDelete : JsValue := .str (toString cnt)
    if jsStrictEq recordsToDelete (.num 0) then
      (.deleteResult "No records found matching the criteria" 0, st, false)
    else
      (.deleteResult "Analytics data deleted successfully" cnt,
       st.filter (fun r => !(matchesFilters req r)), true)

/-! ### Helper lemmas -/

/-- Splitting a list's length over a Boolean predicate and its negation. -/
theorem length_filter_add_length_filter_not {α : Type} (p : α → Bool) (l : List α) :
    (l.filter p).length + (l.filter (fun a => !(p a))).length = l.length := by
  induction l with
  | nil => rfl
  | cons a t ih => cases h : p a <;> simp [List.filter_cons, h] <;> omega

/-- The rows generated for one creation attempt carry exactly the requested
prices, in order. -/
theorem itemRowsFrom_map_price (orderId baseId : Nat) (items : List OrderItemReq) :
    (itemRowsFrom orderId baseId items).map OrderItemRow.product_price
      = items.map (fun item => parseFloatOr0 item.product_price) := by
  induction items generalizing baseId with
  | nil => rfl
  | cons a t ih => simp [itemRowsFrom, ih]

/-- Every row generated for one creation attempt references the new header. -/
theorem itemRowsFrom_order_id (orderId baseId : Nat) (items : List OrderItemReq) :
    ∀ r ∈ itemRowsFrom orderId baseId items, r.order_id = orderId := by
  induction items generalizing baseId with
  | nil => simp [itemRowsFrom]
  | cons a t ih =>
      intro r hr
      rcases hr with _ | hr
      · rfl
      · exact ih (baseId + 1) r (by assumption)

/-- Applying an id-preserving rewrite to the rows matching an id commutes
with primary-key lookup. -/
theorem find?_update_map (l : List OrderRow) (id : Nat) (f : OrderRow → OrderRow)
    (hf : ∀ o, (f o).id = o.id) :
    (l.map (fun o => if o.id == id then f o else o)).find? (fun o => o.id == id)
      = (l.find? (fun o => o.id == id)).map f := by
  induction l with
  | nil => rfl
  | cons a t ih =>
    by_cases h : (a.id == id) = true
    · rw [List.map_cons, if_pos h,
        @List.find?_cons_of_pos OrderRow (fun o => o.id == id) (f a) _ (by show ((f a).id == id) = true; rw [hf]; exact h),
        @List.find?_cons_of_pos OrderRow (fun o => o.id == id) a t h]
      rfl
    · rw [List.map_cons, if_neg h,
        @List.find?_cons_of_neg OrderRow (fun o => o.id == id) a _ h,
        @List.find?_cons_of_neg OrderRow (fun o => o.id == id) a t h, ih]

/-! ### Concrete instances used by counterexamples and witnesses -/

/-- The empty order store. -/
def st0 : OrderStore := { orders := [], order_items := [], nextId := 0 }

/-- The two line items of the spec's worked example (Game A at 19.99 twice,
Game B at 5.00 once). -/
def exItems : List OrderItemReq :=
  [ { game_id := none, product_title := "Game A",
      product_price := some (1999/100), quantity := some 2 },
    { game_id := none, product_title := "Game B",
      product_price := some 5, quantity := some 1 } ]

/-- The spec's worked example request. -/
def exReq : CreateOrderReq :=
  { user_id := some "u1", items := some exItems, customer_email := none }

/-- The header the code actually produces for the worked example. -/
def exHeader : OrderRow :=
  { id := 0, order_number := "LUGX-0", user_id := "u1", status := "pending",
    total_amount := 2499/100, customer_email := none, created_at := 0 }

/-- A creation request whose items field is a present but empty list. -/
def emptyItemsReq : CreateOrderReq :=
  { user_id := some "u1", items := some [], customer_email := none }

/-- A creation request with no items field at all. -/
def noItemsReq : CreateOrderReq :=
  { user_id := some "u1", items := none, customer_email := none }

/-- A stored order used by the update/delete examples. -/
def exOrder : OrderRow :=
  { id := 0, order_number := "LUGX-1", user_id := "u2", status := "pending",
    total_amount := 10, customer_email := some "a@b.c", created_at := 1 }

/-- Two stored line items belonging to `exOrder`. -/
def exItemRowA : OrderItemRow :=
  { id := 1, order_id := 0, game_id := none, product_title := "Game A",
    product_price := 7, quantity := 1 }

/-- Second stored line item of `exOrder`. -/
def exItemRowB : OrderItemRow :=
  { id := 2, order_id := 0, game_id := none, product_title := "Game B",
    product_price := 3, quantity := 1 }

/-- A store holding one order with two line items. -/
def stOne : OrderStore :=
  { orders := [exOrder], order_items := [exItemRowA, exItemRowB], nextId := 3 }

/-- Five well-formed line items, used to exercise a failure on the third. -/
def exItems5 : List OrderItemReq :=
  [ { game_id := none, product_title := "G1", product_price := some 1, quantity := some 1 },
    { game_id := none, product_title := "G2", product_price := some 2, quantity := some 1 },
    { game_id := none, product_title := "G3", product_price := some 3, quantity := some 1 },
    { game_id := none, product_title := "G4", product_price := some 4, quantity := some 1 },
    { game_id := none, product_title := "G5", product_price := some 5, quantity := some 1 } ]

/-- A valid five-item creation request. -/
def req5 : CreateOrderReq :=
  { user_id := some "u3", items := some exItems5, customer_email := none }

/-- An update request carrying a status outside the fixed set. -/
def badStatusReq : UpdateOrderReq := { status := some "refunded", customer_email := none }

/-- An update request supplying only a (valid) status. -/
def statusReq : UpdateOrderReq := { status := some "confirmed", customer_email := none }

/-- The row `statusReq` turns `exOrder` into. -/
def updatedOrder : OrderRow := { exOrder with status := "confirmed" }

/-! ### C1 — order total -/

/-- C1 (counterexample): the spec's worked example — Game A at 19.99 with
quantity 2 plus Game B at 5.00 with quantity 1 — is created with persisted
and returned total 24.99, not the claimed 44.98: line 135 sums
`parseFloat(item.product_price) || 0` over the items and never multiplies
by the quantity. -/
theorem C1_counterexample :
    (createOrder st0 exReq 0 none).1 = OrderResp.created exHeader
    ∧ (createOrder st0 exReq 0 none).2.orders.map OrderRow.total_amount
        = [(2499/100 : Rat)]
    ∧ (2499/100 : Rat) ≠ 4498/100 := by
  have h1 : jsFalsy (some "u1") = false := by decide
  refine ⟨?_, ?_, by norm_num⟩
  · norm_num [createOrder, st0, exReq, exItems, orderTotal, parseFloatOr0,
      insertionFails, h1, exHeader]
    decide
  · norm_num [createOrder, st0, exReq, exItems, orderTotal, parseFloatOr0,
      insertionFails, h1]

/-- C1 (amended): for every successfully created order, the header appended
to the store is the returned one, and its total equals the sum over the
line items persisted for that order of their `product_price` alone — the
quantity is not consulted, so the worked example totals 24.99 rather than
44.98. -/
theorem C1_total_snapshot (st : OrderStore) (req : CreateOrderReq) (now : Nat)
    (failAt : Option Nat) (o : OrderRow)
    (h : (createOrder st req now failAt).1 = OrderResp.created o) :
    (createOrder st req now failAt).2.orders = st.orders ++ [o]
    ∧ o.total_amount =
        (((createOrder st req now failAt).2.order_items.drop
            st.order_items.length).map OrderItemRow.product_price).sum
    ∧ ∀ r ∈ (createOrder st req now failAt).2.order_items.drop
        st.order_items.length, r.order_id = o.id := by
  cases hu : jsFalsy req.user_id with
  | true => simp [createOrder, hu] at h
  | false =>
    cases hi : req.items with
    | none => simp [createOrder, hu, hi] at h
    | some items =>
      cases hf : insertionFails items failAt with
      | true => simp [createOrder, hu, hi, hf] at h
      | false =>
        simp only [createOrder, hu, hi, hf] at h ⊢
        simp only [Bool.false_eq_true, if_false, reduceCtorEq] at h ⊢
        rw [OrderResp.created.injEq] at h
        subst h
        refine ⟨rfl, ?_, ?_⟩
        · rw [List.drop_left, itemRowsFrom_map_price]
          rfl
        · rw [List.drop_left]
          exact itemRowsFrom_order_id _ _ _

/-- C1 (witness): the amended theorem applied to the worked example: the
persisted header is the returned one and its total 24.99 is the sum of the
two persisted item prices. -/
theorem C1_total_snapshot_witness :
    (createOrder st0 exReq 0 none).2.orders = st0.orders ++ [exHeader]
    ∧ exHeader.total_amount =
        (((createOrder st0 exReq 0 none).2.order_items.drop
            st0.order_items.length).map OrderItemRow.product_price).sum
    ∧ ∀ r ∈ (createOrder st0 exReq 0 none).2.order_items.drop
        st0.order_items.length, r.order_id = exHeader.id :=
  C1_total_snapshot st0 exReq 0 none exHeader (by
    have h1 : jsFalsy (some "u1") = false := by decide
    norm_num [createOrder, st0, exReq, exItems, orderTotal, parseFloatOr0,
      insertionFails, h1, exHeader]
    try decide)

/-! ### C2 — items-list validation -/

/-- C2 (counterexample): a request whose `items` field is a present but
empty list is not rejected — `![]` is `false` in JavaScript and
`Array.isArray([])` holds, so line 131 lets it through — and a header row
with total 0 is committed, contradicting both the claimed `ValidationError`
and the claimed absence of a persisted header. -/
theorem C2_counterexample :
    (createOrder st0 emptyItemsReq 0 none).1 =
      OrderResp.created
        { id := 0, order_number := "LUGX-0", user_id := "u1", status := "pending",
          total_amount := 0, customer_email := none, created_at := 0 }
    ∧ (createOrder st0 emptyItemsReq 0 none).1.httpCode = 201
    ∧ (createOrder st0 emptyItemsReq 0 none).2.orders.length = 1 := by
  have h1 : jsFalsy (some "u1") = false := by decide
  refine ⟨?_, ?_, ?_⟩ <;>
    · norm_num [createOrder, st0, emptyItemsReq, orderTotal, insertionFails, h1,
        OrderResp.httpCode]
      try decide

/-- C2 (amended): a creation request whose `items` field is missing or not
an array fails with the 400 `ValidationError` and persists neither a header
row nor any item row; a present but empty list, however, is accepted (see
the counterexample). -/
theorem C2_missing_items_rejected (st : OrderStore) (req : CreateOrderReq)
    (now : Nat) (failAt : Option Nat) (h : req.items = none) :
    (createOrder st req now failAt).1 = OrderResp.validationError "user_id and items required"
    ∧ (createOrder st req now failAt).1.httpCode = 400
    ∧ (createOrder st req now failAt).2 = st := by
  cases hu : jsFalsy req.user_id <;>
    simp [createOrder, hu, h, OrderResp.httpCode]

/-- C2 (witness): the amended theorem applied to a concrete request with no
`items` field, on the empty store. -/
theorem C2_missing_items_witness :
    (createOrder st0 noItemsReq 0 none).1 = OrderResp.validationError "user_id and items required"
    ∧ (createOrder st0 noItemsReq 0 none).1.httpCode = 400
    ∧ (createOrder st0 noItemsReq 0 none).2 = st0 :=
  C2_missing_items_rejected st0 noItemsReq 0 none rfl

/-! ### C3 — all-or-nothing transaction -/

/-- C3 (confirmed): when a creation request passes validation but some item
insertion raises a storage error (injected at index `k`), the whole
transaction rolls back: the handler answers the 500 internal error and the
store — header row included — is exactly what it was before the attempt. -/
theorem C3_item_failure_rolls_back (st : OrderStore) (req : CreateOrderReq)
    (now k : Nat) (items : List OrderItemReq)
    (hu : jsFalsy req.user_id = false) (hi : req.items = some items)
    (hk : k < items.length) :
    (createOrder st req now (some k)).1 = OrderResp.serverError
    ∧ (createOrder st req now (some k)).1.httpCode = 500
    ∧ (createOrder st req now (some k)).2 = st := by
  have hf : insertionFails items (some k) = true := by
    simp [insertionFails, hk]
  simp [createOrder, hu, hi, hf, OrderResp.httpCode]

/-- C3 (witness): a five-item request against a non-empty store, with the
insertion of the third item failing, answers 500 and leaves the store
unchanged. -/
theorem C3_rollback_witness :
    (createOrder stOne req5 7 (some 2)).1 = OrderResp.serverError
    ∧ (createOrder stOne req5 7 (some 2)).1.httpCode = 500
    ∧ (createOrder stOne req5 7 (some 2)).2 = stOne :=
  C3_item_failure_rolls_back stOne req5 7 2 exItems5 (by decide) rfl (by decide)

/-! ### C4 — status-update rejections -/

/-- C4 (confirmed): a `PUT /orders/:id` request for a missing id answers the
404 `NotFoundError`; for an existing order, a supplied status outside the
fixed six-value set answers the 400 `ValidationError` carrying the full
list of valid values, and a request supplying neither field answers the 400
`ValidationError`; in all three cases the store is returned unchanged. -/
theorem C4_update_rejections (st : OrderStore) (id : Nat) (req : UpdateOrderReq) :
    (findOrder st id = none →
      updateOrder st id req = (OrderResp.notFound "Order not found", st))
    ∧ (∀ s, req.status = some s → s ∉ validStatuses → findOrder st id ≠ none →
      updateOrder st id req =
        (OrderResp.invalidStatus "Invalid status"
          ["pending", "confirmed", "processing", "shipped", "delivered", "cancelled"], st))
    ∧ (req.status = none → req.customer_email = none → findOrder st id ≠ none →
      updateOrder st id req = (OrderResp.validationError "No fields to update", st)) := by
  refine ⟨?_, ?_, ?_⟩
  · intro h
    simp [updateOrder, h]
  · intro s hs hmem hne
    obtain ⟨old, hold⟩ : ∃ old, findOrder st id = some old := by
      cases hfo : findOrder st id with
      | none => exact absurd hfo hne
      | some o => exact ⟨o, rfl⟩
    have hbad : statusBad req = true := by
      simp [statusBad, hs, hmem]
    simp [updateOrder, hold, hbad, validStatuses]
  · intro h1 h2 hne
    obtain ⟨old, hold⟩ : ∃ old, findOrder st id = some old := by
      cases hfo : findOrder st id with
      | none => exact absurd hfo hne
      | some o => exact ⟨o, rfl⟩
    have hgood : statusBad req = false := by simp [statusBad, h1]
    simp [updateOrder, hold, hgood, h1, h2]

/-- C4 (witness): updating the stored example order with the unknown status
`refunded` is rejected with the full valid list and leaves the store as it
was. -/
theorem C4_update_witness :
    updateOrder stOne 0 badStatusReq =
      (OrderResp.invalidStatus "Invalid status"
        ["pending", "confirmed", "processing", "shipped", "delivered", "cancelled"], stOne) :=
  (C4_update_rejections stOne 0 badStatusReq).2.1 "refunded" rfl (by decide) (by decide)

/-! ### C5 — partial update frame -/

/-- C5 (confirmed): for every existing order and every successful partial
update, the returned row keeps the previous `id`, `order_number`,
`user_id`, `total_amount` and `created_at`; whichever of
`status`/`customer_email` was omitted keeps its previous value, whichever
was supplied takes the supplied value; the returned row is exactly the
stored row, and rows of other orders are untouched. -/
theorem C5_partial_update_frame (st : OrderStore) (id : Nat) (req : UpdateOrderReq)
    (old r : OrderRow) (hold : findOrder st id = some old)
    (hupd : (updateOrder st id req).1 = OrderResp.updated r) :
    r.id = old.id
    ∧ r.order_number = old.order_number
    ∧ r.user_id = old.user_id
    ∧ r.total_amount = old.total_amount
    ∧ r.created_at = old.created_at
    ∧ (req.status = none → r.status = old.status)
    ∧ (req.customer_email = none → r.customer_email = old.customer_email)
    ∧ (∀ s, req.status = some s → r.status = s)
    ∧ (∀ e, req.customer_email = some e → r.customer_email = some e)
    ∧ findOrder (updateOrder st id req).2 id = some r
    ∧ (∀ o ∈ st.orders, (o.id == id) = false → o ∈ (updateOrder st id req).2.orders) := by
  have hr : r = applyUpdate req old ∧ statusBad req = false
      ∧ (req.status.isNone && req.customer_email.isNone) = false := by
    cases hbad : statusBad req with
    | true => simp [updateOrder, hold, hbad] at hupd
    | false =>
      cases hz : req.status.isNone && req.customer_email.isNone with
      | true => simp [updateOrder, hold, hbad, hz] at hupd
      | false =>
        simp only [updateOrder, hold, hbad, hz, Bool.false_eq_true, if_false] at hupd
        rw [OrderResp.updated.injEq] at hupd
        exact ⟨hupd.symm, rfl, rfl⟩
  obtain ⟨hr, hbad, hz⟩ := hr
  subst hr
  refine ⟨rfl, rfl, rfl, rfl, rfl, ?_, ?_, ?_, ?_, ?_, ?_⟩
  · intro h; simp [applyUpdate, h]
  · intro h; simp [applyUpdate, h]
  · intro s h; simp [applyUpdate, h]
  · intro e h; simp [applyUpdate, h]
  · have hst : (updateOrder st id req).2.orders =
        st.orders.map (fun o => if o.id == id then applyUpdate req o else o) := by
      simp [updateOrder, hold, hbad, hz]
    unfold findOrder
    rw [hst, find?_update_map st.orders id (applyUpdate req) (fun _ => rfl)]
    unfold findOrder at hold
    rw [hold]
    rfl
  · intro o ho hne
    have hst : (updateOrder st id req).2.orders =
        st.orders.map (fun o => if o.id == id then applyUpdate req o else o) := by
      simp [updateOrder, hold, hbad, hz]
    rw [hst]
    have : (fun o => if o.id == id then applyUpdate req o else o) o = o := by
      simp [hne]
    exact this ▸ List.mem_map_of_mem _ ho

/-- C5 (witness): supplying only `status := confirmed` to the stored
example order updates that one field and keeps every other field, in both
the returned and the stored row. -/
theorem C5_partial_update_witness :
    updatedOrder.id = exOrder.id
    ∧ updatedOrder.order_number = exOrder.order_number
    ∧ updatedOrder.user_id = exOrder.user_id
    ∧ updatedOrder.total_amount = exOrder.total_amount
    ∧ updatedOrder.created_at = exOrder.created_at
    ∧ (statusReq.status = none → updatedOrder.status = exOrder.status)
    ∧ (statusReq.customer_email = none →
        updatedOrder.customer_email = exOrder.customer_email)
    ∧ (∀ s, statusReq.status = some s → updatedOrder.status = s)
    ∧ (∀ e, statusReq.customer_email = some e → updatedOrder.customer_email = some e)
    ∧ findOrder (updateOrder stOne 0 statusReq).2 0 = some updatedOrder
    ∧ (∀ o ∈ stOne.orders, (o.id == 0) = false →
        o ∈ (updateOrder stOne 0 statusReq).2.orders) :=
  C5_partial_update_frame stOne 0 statusReq exOrder updatedOrder (by decide) (by decide)

/-! ### C6 — delete with cascade -/

/-- C6 (confirmed): deleting a missing id answers the 404 `NotFoundError`
and changes nothing; deleting an existing order (ids are unique — the
primary-key invariant) returns the deleted header as confirmation, removes
exactly one header row and exactly its N item rows in the one transaction,
and afterwards fetching the order answers the 404 `NotFoundError` while no
item of the order remains. -/
theorem C6_delete_cascades (st : OrderStore) (id : Nat) :
    (findOrder st id = none →
      deleteOrder st id = (OrderResp.notFound "Order not found", st))
    ∧ (∀ old, findOrder st id = some old →
        st.orders.countP (fun o => o.id == id) = 1 →
        (deleteOrder st id).1 = OrderResp.deleted old
        ∧ (deleteOrder st id).2.orders.length + 1 = st.orders.length
        ∧ (deleteOrder st id).2.order_items.length
            + st.order_items.countP (fun r => r.order_id == id)
            = st.order_items.length
        ∧ getOrder (deleteOrder st id).2 id = OrderResp.notFound "Order not found"
        ∧ (deleteOrder st id).2.order_items.filter (fun r => r.order_id == id) = []) := by
  constructor
  · intro h
    simp [deleteOrder, h]
  · intro old hold hcnt
    have hresp : (deleteOrder st id).1 = OrderResp.deleted old := by
      simp [deleteOrder, hold]
    have horders : (deleteOrder st id).2.orders
        = st.orders.filter (fun o => !(o.id == id)) := by
      simp [deleteOrder, hold]
    have hitems : (deleteOrder st id).2.order_items
        = st.order_items.filter (fun r => !(r.order_id == id)) := by
      simp [deleteOrder, hold]
    refine ⟨hresp, ?_, ?_, ?_, ?_⟩
    · rw [horders]
      have := length_filter_add_length_filter_not (fun o => o.id == id) st.orders
      rw [List.countP_eq_length_filter] at hcnt
      omega
    · rw [hitems]
      have := length_filter_add_length_filter_not
        (fun r => r.order_id == id) st.order_items
      rw [List.countP_eq_length_filter]
      omega
    · have hfind : findOrder (deleteOrder st id).2 id = none := by
        unfold findOrder
        rw [horders, List.find?_eq_none]
        intro x hx
        have hxmem := (List.mem_filter.mp hx).2
        simp only [Bool.not_eq_eq_eq_not, Bool.not_true] at hxmem
        simp [hxmem]
      simp [getOrder, hfind]
    · rw [hitems, List.filter_filter]
      have : ∀ r : OrderItemRow,
          ((r.order_id == id) && !(r.order_id == id)) = false := by
        intro r; cases h : r.order_id == id <;> simp [h]
      calc st.order_items.filter (fun r => (r.order_id == id) && !(r.order_id == id))
          = st.order_items.filter (fun _ => false) := by
            exact List.filter_congr (fun r _ => this r)
        _ = [] := List.filter_false st.order_items

/-- C6 (witness): deleting the stored example order (one header, two items)
removes exactly three rows, returns the header, and leaves the order
unfetchable. -/
theorem C6_delete_witness :
    (deleteOrder stOne 0).1 = OrderResp.deleted exOrder
    ∧ (deleteOrder stOne 0).2.orders.length + 1 = stOne.orders.length
    ∧ (deleteOrder stOne 0).2.order_items.length
        + stOne.order_items.countP (fun r => r.order_id == 0)
        = stOne.order_items.length
    ∧ getOrder (deleteOrder stOne 0).2 0 = OrderResp.notFound "Order not found"
    ∧ (deleteOrder stOne 0).2.order_items.filter (fun r => r.order_id == 0) = [] :=
  (C6_delete_cascades stOne 0).2 exOrder (by decide) (by decide)

/-! ### Concrete analytics instances -/

/-- A stored event older than the example cutoff. -/
def rowOld : EventRow :=
  { session_id := "s1", user_id := "u1", event_type := "page_view",
    page_path := "/a", page_url := "/a", timestamp := 10, event_data := "\x7b\x7d" }

/-- A stored event newer than the example cutoff. -/
def rowNew : EventRow :=
  { session_id := "s2", user_id := "u2", event_type := "click_event",
    page_path := "/b", page_url := "/b", timestamp := 100, event_data := "\x7b\x7d" }

/-- A two-row event store. -/
def stA : List EventRow := [rowOld, rowNew]

/-- A bulk-delete request filtering only by an age cutoff of 50. -/
def reqBD : DeleteAnalyticsReq :=
  { user_id := none, session_id := none, before_date := some 50 }

/-- A bulk-delete request whose user filter matches no stored row. -/
def reqGhost : DeleteAnalyticsReq :=
  { user_id := some "ghost", session_id := none, before_date := none }

/-- A bulk-delete request supplying no filter at all. -/
def reqNoFilter : DeleteAnalyticsReq :=
  { user_id := none, session_id := none, before_date := none }

/-! ### C7 — analytics bulk delete -/

/-- C7 (confirmed): a bulk-delete request with none of the three filters is
rejected with the 400 `ValidationError`, deleting nothing and issuing no
delete statement; with a `before_date` cutoff, every row removed is
strictly older than the cutoff; and the reported `deleted_count` — computed
by the count query before the delete is issued — equals the number of rows
actually removed. -/
theorem C7_bulk_delete (st : List EventRow) (req : DeleteAnalyticsReq) :
    (req.user_id = none → req.session_id = none → req.before_date = none →
      deleteAnalytics st req =
        (AnalyticsResp.badRequest
          "At least one filter required: user_id, session_id, or before_date", st, false))
    ∧ (∀ d, req.before_date = some d →
        ∀ r ∈ st, r ∉ (deleteAnalytics st req).2.1 → r.timestamp < d)
    ∧ (∀ msg n, (deleteAnalytics st req).1 = AnalyticsResp.deleteResult msg n →
        n + (deleteAnalytics st req).2.1.length = st.length) := by
  refine ⟨?_, ?_, ?_⟩
  · intro h1 h2 h3
    simp [deleteAnalytics, h1, h2, h3, jsFalsy]
  · intro d hd r hr hnr
    by_cases hv : (jsFalsy req.user_id && jsFalsy req.session_id
        && req.before_date.isNone) = true
    · rw [hd] at hv
      simp at hv
    · simp only [Bool.not_eq_true] at hv
      have hst : (deleteAnalytics st req).2.1
          = st.filter (fun r => !(matchesFilters req r)) := by
        simp [deleteAnalytics, hv, jsStrictEq_str_num]
      rw [hst] at hnr
      have hm : matchesFilters req r = true := by
        by_contra hm
        simp only [Bool.not_eq_true] at hm
        exact hnr (List.mem_filter.mpr ⟨hr, by simp [hm]⟩)
      unfold matchesFilters at hm
      rw [hd] at hm
      simp only [Bool.and_eq_true, decide_eq_true_eq] at hm
      exact hm.2
  · intro msg n hresp
    by_cases hv : (jsFalsy req.user_id && jsFalsy req.session_id
        && req.before_date.isNone) = true
    · simp [deleteAnalytics, hv] at hresp
    · simp only [Bool.not_eq_true] at hv
      have heq : deleteAnalytics st req
          = (AnalyticsResp.deleteResult "Analytics data deleted successfully"
              ((st.filter (matchesFilters req)).length),
             st.filter (fun r => !(matchesFilters req r)), true) := by
        simp [deleteAnalytics, hv, jsStrictEq_str_num]
      rw [heq] at hresp ⊢
      rw [AnalyticsResp.deleteResult.injEq] at hresp
      rw [← hresp.2]
      exact length_filter_add_length_filter_not (matchesFilters req) st

/-- C7 (witness): on the two-row store with cutoff 50, the removed row is
strictly older than 50 and the reported count 1 matches the one row
actually removed. -/
theorem C7_bulk_delete_witness :
    rowOld.timestamp < 50
    ∧ 1 + (deleteAnalytics stA reqBD).2.1.length = stA.length :=
  ⟨(C7_bulk_delete stA reqBD).2.1 50 rfl rowOld (by decide) (by decide),
   (C7_bulk_delete stA reqBD).2.2 "Analytics data deleted successfully" 1 (by decide)⟩

/-! ### C8 — ingestion validation and server timestamp -/

/-- A request shaped like the browser beacon's payload (`lugx-analytics.js`
always sends all seven fields, including a client timestamp). -/
def beaconReq : AnalyticsReq :=
  { session_id := some "session_123_abc", user_id := some "user_456_def",
    event_type := some "page_view", page_path := some "/index.html",
    page_url := some "http://shop.example/index.html",
    timestamp := some "2025-01-01T00:00:00.123Z",
    data := some "\x7b\x7d" }

/-- C8 (confirmed): an ingestion request missing any of `session_id`,
`user_id`, `event_type`, `page_path` is rejected with the 400
`ValidationError` and nothing is stored; an accepted request appends
exactly one row whose timestamp is the server clock truncated to whole
seconds (any sub-second remainder is discarded); and the client-supplied
`timestamp` field is ignored — changing it changes nothing about the
response or the stored row. -/
theorem C8_ingestion (st : List EventRow) (req : AnalyticsReq) (nowMs : Nat) :
    ((req.session_id = none ∨ req.user_id = none ∨ req.event_type = none
        ∨ req.page_path = none) →
      postAnalytics st req nowMs =
        (AnalyticsResp.badRequest
          "Missing required fields: session_id, user_id, event_type, page_path", st))
    ∧ ((jsFalsy req.session_id || jsFalsy req.user_id || jsFalsy req.event_type
          || jsFalsy req.page_path) = false →
        postAnalytics st req nowMs = (AnalyticsResp.ok, st ++ [analyticsRow req nowMs]))
    ∧ (analyticsRow req nowMs).timestamp = nowMs / 1000
    ∧ (∀ s r, r < 1000 → (analyticsRow req (1000 * s + r)).timestamp = s)
    ∧ (∀ t, postAnalytics st { req with timestamp := t } nowMs
          = postAnalytics st req nowMs) := by
  refine ⟨?_, ?_, rfl, ?_, fun t => rfl⟩
  · intro h
    have hb : (jsFalsy req.session_id || jsFalsy req.user_id || jsFalsy req.event_type
        || jsFalsy req.page_path) = true := by
      rcases h with h | h | h | h <;> simp [h, jsFalsy]
    simp [postAnalytics, hb]
  · intro h
    simp [postAnalytics, h]
  · intro s r hr
    show (1000 * s + r) / 1000 = s
    omega

/-- C8 (witness): the beacon-shaped request is accepted, a server clock of
3999 milliseconds is stored as second 3, and replacing the client timestamp
leaves the outcome untouched. -/
theorem C8_ingestion_witness :
    postAnalytics [] beaconReq 1234567
      = (AnalyticsResp.ok, [] ++ [analyticsRow beaconReq 1234567])
    ∧ (analyticsRow beaconReq (1000 * 3 + 999)).timestamp = 3
    ∧ postAnalytics [] { beaconReq with timestamp := some "1999-12-31" } 1234567
        = postAnalytics [] beaconReq 1234567 :=
  ⟨(C8_ingestion [] beaconReq 1234567).2.1 (by decide),
   (C8_ingestion [] beaconReq 1234567).2.2.2.1 3 999 (by decide),
   (C8_ingestion [] beaconReq 1234567).2.2.2.2 (some "1999-12-31")⟩

/-! ### C9 — stored-field normalization -/

/-- Escaping is the identity on apostrophe-free text. -/
theorem escapeChars_no_squote (l : List Char) (h : squote ∉ l) :
    escapeChars l = l := by
  induction l with
  | nil => rfl
  | cons c cs ih =>
    have hc : (c == squote) = false := by
      simp only [beq_eq_false_iff_ne, ne_eq]
      intro he
      exact h (he ▸ List.mem_cons_self c cs)
    simp [escapeChars, hc, ih (fun hm => h (List.mem_cons_of_mem _ hm))]

/-- Literal parsing is the identity on apostrophe-free text. -/
theorem unescapeChars_no_squote (l : List Char) (h : squote ∉ l) :
    unescapeChars l = l := by
  induction l with
  | nil => rfl
  | cons c cs ih =>
    cases cs with
    | nil => rfl
    | cons c2 t =>
      have hc : (c == squote) = false := by
        simp only [beq_eq_false_iff_ne, ne_eq]
        intro he
        exact h (he ▸ List.mem_cons_self c (c2 :: t))
      have : unescapeChars (c :: c2 :: t) = c :: unescapeChars (c2 :: t) := by
        simp [unescapeChars, hc]
      rw [this, ih (fun hm => h (List.mem_cons_of_mem _ hm))]

/-- An ingestion request whose `session_id` is sixty apostrophes. -/
def reqQ : AnalyticsReq :=
  { session_id := some (String.mk (List.replicate 60 squote)),
    user_id := some "u", event_type := some "page_view",
    page_path := some "/p", page_url := none, timestamp := none, data := none }

/-- C9 (counterexample): for a `session_id` of sixty apostrophes the stored
value is fifty apostrophes, not the first 100 characters of the input
(which would be all sixty): the code escapes first (doubling each
apostrophe to 120 characters) and then truncates the escaped text to 100,
which the store parses back to 50. -/
theorem C9_counterexample :
    (postAnalytics [] reqQ 0).2.map EventRow.session_id
      = [String.mk (List.replicate 50 squote)]
    ∧ String.mk (List.replicate 50 squote)
        ≠ String.mk ((String.mk (List.replicate 60 squote)).data.take 100) := by
  constructor
  · decide
  · decide

/-- C9 (amended): every accepted ingestion request stores one row whose
text fields are the input escaped (apostrophes doubled), truncated to
100/100/100/200/500 characters of the escaped form, and parsed back by the
store; on any input free of apostrophes this equals plain truncation to the
first N characters.  When `page_url` is absent the value of `page_path` is
used in its place (truncated at 500). -/
theorem C9_normalization (st : List EventRow) (req : AnalyticsReq) (nowMs : Nat)
    (h : (postAnalytics st req nowMs).1 = AnalyticsResp.ok) :
    (postAnalytics st req nowMs).2 = st ++ [analyticsRow req nowMs]
    ∧ (analyticsRow req nowMs).session_id = storedField 100 (req.session_id.getD "")
    ∧ (analyticsRow req nowMs).user_id = storedField 100 (req.user_id.getD "")
    ∧ (analyticsRow req nowMs).event_type = storedField 100 (req.event_type.getD "")
    ∧ (analyticsRow req nowMs).page_path = storedField 200 (req.page_path.getD "")
    ∧ (analyticsRow req nowMs).page_url
        = storedField 500 (jsOrStr req.page_url (req.page_path.getD ""))
    ∧ (req.page_url = none →
        (analyticsRow req nowMs).page_url = storedField 500 (req.page_path.getD ""))
    ∧ (∀ n s, squote ∉ s.data → storedField n s = String.mk (s.data.take n)) := by
  have hst : (postAnalytics st req nowMs).2 = st ++ [analyticsRow req nowMs] := by
    cases hb : (jsFalsy req.session_id || jsFalsy req.user_id || jsFalsy req.event_type
        || jsFalsy req.page_path) with
    | true => simp [postAnalytics, hb] at h
    | false => simp [postAnalytics, hb]
  refine ⟨hst, rfl, rfl, rfl, rfl, rfl, ?_, ?_⟩
  · intro hurl
    simp [analyticsRow, jsOrStr, hurl]
  · intro n s hs
    unfold storedField
    rw [escapeChars_no_squote s.data hs,
      unescapeChars_no_squote (s.data.take n)
        (fun hm => hs (List.take_subset n s.data hm))]

/-- C9 (witness): the amended theorem applied to the apostrophe-free beacon
request: its stored `session_id` is the plain 100-character truncation. -/
theorem C9_normalization_witness :
    storedField 100 "session_123_abc"
      = String.mk ("session_123_abc".data.take 100) :=
  (C9_normalization [] beaconReq 0 (by decide)).2.2.2.2.2.2.2 100 "session_123_abc"
    (by decide)

/-! ### C10 — zero-match short-circuit -/

/-- C10 (code bug): the line-227 zero-match short-circuit is dead code.
At a bulk-delete request whose filter matches zero rows — user `ghost`
against the two-row store — the count arrives from `FORMAT JSON` as the
string `0`, JavaScript strict equality between a string and the number 0
is false, so the program still issues the `ALTER TABLE ... DELETE`
statement (issued flag `true`) and answers
`Analytics data deleted successfully` with `deleted_count` 0 rather than
taking the `No records found matching the criteria` branch.  The event
store itself is left unchanged only because the delete clause matches
nothing. -/
theorem C10_dead_short_circuit :
    deleteAnalytics stA reqGhost
      = (AnalyticsResp.deleteResult "Analytics data deleted successfully" 0,
         stA, true)
    ∧ jsStrictEq (JsValue.str "0") (JsValue.num 0) = false :=
  ⟨by decide, jsStrictEq_str_num "0" 0⟩
